import Mathlib

/-!
Shallow embedding of the Reference-Band Monitor backend
(`src/backend/main.py`) of hema2389/STOCK_ANALYSIS_MODULE.

Modelling conventions:
- Prices are rationals (`ℚ`); nullable fields are `Option`s.
- A ticker symbol is a list of characters, so that the Python string
  operations `strip`/`upper` used by the add-stock endpoints can be
  modelled faithfully.
- The per-ticker info dict created by `ensure_stock_entry` becomes the
  `StockEntry` structure with the same seven keys.
- A fetched intraday DataFrame (`yf.download(period="1d", interval="1m")`)
  becomes a list of minute `Bar`s carrying the `High`/`Low`/`Close`
  columns that the code reads (the `Open` column is never read by the
  monitor logic).  `fetch_intraday_df` returning `None` on error/empty
  becomes `Option (List Bar)` with `none`.
- Wall-clock time-of-day is seconds since midnight IST (`Nat`); the
  `now.isoformat()` timestamp written into `last_update` is modelled as
  an abstract `Nat` tick passed to the step function.
-/

namespace StockMonitor

/-- A ticker symbol, as the character list of its Python string. -/
abbrev Symbol := List Char

/-- One minute bar of the intraday DataFrame: the `High`, `Low` and
`Close` columns that `compute_live_from_df` and the 10:30 capture read. -/
structure Bar where
  high : ℚ
  low : ℚ
  close : ℚ
deriving DecidableEq

/-- The per-ticker info dict installed by `ensure_stock_entry` /
the daily reset, with the same seven keys (`main.py` lines 97-105). -/
structure StockEntry where
  open_high : Option ℚ
  open_low : Option ℚ
  current_high : Option ℚ
  current_low : Option ℚ
  last_price : Option ℚ
  status : String
  last_update : Option Nat
deriving DecidableEq

/-- The default entry that `ensure_stock_entry` installs via
`state.setdefault` (`main.py` lines 97-105): every field null and
status `UNKNOWN`. -/
def defaultEntry : StockEntry :=
  { open_high := none
    open_low := none
    current_high := none
    current_low := none
    last_price := none
    status := "UNKNOWN"
    last_update := none }

/-- The fresh dict the daily-reset block writes for every stock
(`main.py` lines 151-159). -/
def resetEntry : StockEntry :=
  { open_high := none
    open_low := none
    current_high := none
    current_low := none
    last_price := none
    status := "UNKNOWN"
    last_update := none }

/-- `df["High"].max()` over the fetched series, `none` on an empty frame. -/
def seriesHigh : List Bar → Option ℚ
  | [] => none
  | b :: bs => some (bs.foldl (fun a c => max a c.high) b.high)

/-- `df["Low"].min()` over the fetched series, `none` on an empty frame. -/
def seriesLow : List Bar → Option ℚ
  | [] => none
  | b :: bs => some (bs.foldl (fun a c => min a c.low) b.low)

/-- `df["Close"].iloc[-1]`: the close of the most recent minute bar. -/
def seriesLastClose (df : List Bar) : Option ℚ :=
  df.getLast?.map Bar.close

/-- `compute_live_from_df` (`main.py` lines 107-119): returns the tuple
`(last_price, day_high, day_low)` derived from the frame. -/
def compute_live_from_df (df : List Bar) : Option ℚ × Option ℚ × Option ℚ :=
  (seriesLastClose df, seriesHigh df, seriesLow df)

/-- `MARKET_OPEN = dtime(9, 15)` as seconds since midnight. -/
def marketOpenSec : Nat := (9 * 60 + 15) * 60

/-- `MARKET_CLOSE = dtime(15, 30)` as seconds since midnight. -/
def marketCloseSec : Nat := (15 * 60 + 30) * 60

/-- `is_market_open_now`: `MARKET_OPEN <= t <= MARKET_CLOSE`. -/
def is_market_open_now (t : Nat) : Prop :=
  marketOpenSec ≤ t ∧ t ≤ marketCloseSec

instance (t : Nat) : Decidable (is_market_open_now t) :=
  inferInstanceAs (Decidable (_ ∧ _))

/-- `now.hour == CAPTURE_HOUR and now.minute == CAPTURE_MINUTE`
with `CAPTURE_HOUR = 10`, `CAPTURE_MINUTE = 30`. -/
def isCaptureMinute (t : Nat) : Prop :=
  t / 3600 = 10 ∧ (t % 3600) / 60 = 30

instance (t : Nat) : Decidable (isCaptureMinute t) :=
  inferInstanceAs (Decidable (_ ∧ _))

/-- The 10:30 capture body for one ticker (`main.py` lines 190-205):
if the ticker is not yet in `captured_1030`, freeze `open_high`/`open_low`
from the frame's `High` max / `Low` min, set status `RED`, stamp
`last_update`; the ticker is added to `captured_1030` in either case
(the `add` sits after the `try`/`except`, so it also runs when the
capture computation fails). The returned `Bool` is the ticker's new
membership in `captured_1030`. -/
def captureTick (ts : Nat) (df : List Bar) (captured : Bool)
    (e : StockEntry) : StockEntry × Bool :=
  if captured then
    (e, captured)
  else
    match seriesHigh df, seriesLow df with
    | some oh, some ol =>
      ({ e with
          open_high := some oh
          open_low := some ol
          status := "RED"
          last_update := some ts }, true)
    | _, _ => (e, true)

/-- The AMBER/RED evaluation at the end of a pass (`main.py` lines
222-236): when both band edges and a last price are present and the
status is not already `MARKET_CLOSED`, price strictly outside the band
gives `AMBER`, otherwise `RED`. -/
def evalStatusUpdate (e : StockEntry) : StockEntry :=
  match e.open_high, e.open_low, e.last_price with
  | some oh, some ol, some lp =>
    if e.status ≠ "MARKET_CLOSED" then
      { e with status := if lp > oh ∨ lp < ol then "AMBER" else "RED" }
    else e
  | _, _, _ => e

/-- One monitor-loop pass over a single ticker whose fetch returned the
frame `df` (`main.py` lines 175-236): update `last_price`/`last_update`
from the frame, overwrite `current_high`/`current_low` with the frame's
max/min, run the 10:30 capture or the post-close `MARKET_CLOSED`
transition depending on the clock, then evaluate AMBER/RED.
`t` is the time of day in seconds, `ts` the abstract `now.isoformat()`
stamp, `captured` the ticker's membership in `captured_1030`. -/
def stepData (t ts : Nat) (captured : Bool) (df : List Bar)
    (e : StockEntry) : StockEntry × Bool :=
  let lp := seriesLastClose df
  let dh := seriesHigh df
  let dl := seriesLow df
  let e1 :=
    match lp with
    | some p => { e with last_price := some p, last_update := some ts }
    | none => e
  if is_market_open_now t then
    let e2 := match dh with
      | some h => { e1 with current_high := some h }
      | none => e1
    let e3 := match dl with
      | some l => { e2 with current_low := some l }
      | none => e2
    let c :=
      if isCaptureMinute t then captureTick ts df captured e3
      else (e3, captured)
    (evalStatusUpdate c.1, c.2)
  else
    let e2 := match dh with
      | some h => { e1 with current_high := some h }
      | none => e1
    let e3 := match dl with
      | some l => { e2 with current_low := some l }
      | none => e2
    let e4 :=
      if marketCloseSec < t ∧ e3.status ≠ "MARKET_CLOSED" then
        { e3 with status := "MARKET_CLOSED", last_update := some ts }
      else e3
    (evalStatusUpdate e4, captured)

/-- One monitor-loop pass over a single already-registered ticker,
including the fetch outcome: `fetch_intraday_df` returning `None` hits
the `continue` at `main.py` line 173, leaving the entry untouched. -/
def stepSymbol (t ts : Nat) (captured : Bool) (odf : Option (List Bar))
    (e : StockEntry) : StockEntry × Bool :=
  match odf with
  | none => (e, captured)
  | some df => stepData t ts captured df e

/-- The symbol-keyed state map (Python's global `state` dict). -/
def StateMap := Symbol → Option StockEntry

/-- Point update of the state map (`state[s] = v`). -/
def setEntry (st : StateMap) (s : Symbol) (v : StockEntry) : StateMap :=
  fun q => if q = s then some v else st q

/-- The two global variables `stocks` (ticker list) and `state`. -/
structure Store where
  stocks : List Symbol
  state : StateMap

/-- The persisted snapshot `{"stocks": stocks, "state": state}` that
`save_persist` writes and `load_persist` reads back. -/
structure Persist where
  stocks : List Symbol
  state : StateMap

/-- `save_persist` (`main.py` lines 46-51): serializes the two globals. -/
def save_persist (st : Store) : Persist :=
  { stocks := st.stocks, state := st.state }

/-- `load_persist` (`main.py` lines 29-44): when the persist file exists
and parses, the globals are taken verbatim from the snapshot; on a
missing or unreadable file they become empty. No field of any loaded
entry is inspected or altered — in particular there is no trading-day
staleness check (the saved entries carry no trading-day field at all). -/
def load_persist : Option Persist → Store
  | some saved => { stocks := saved.stocks, state := saved.state }
  | none => { stocks := [], state := fun _ => none }

/-- `ensure_stock_entry` (`main.py` lines 93-105): append the ticker to
`stocks` if absent, then `state.setdefault(ticker, defaultEntry)`. -/
def ensure_stock_entry (tick : Symbol) (st : Store) : Store :=
  { stocks := if tick ∈ st.stocks then st.stocks else st.stocks ++ [tick]
    state :=
      match st.state tick with
      | some _ => st.state
      | none => setEntry st.state tick defaultEntry }

/-- The daily-reset block (`main.py` lines 148-162): for every ticker in
`stocks`, overwrite its entry with the fresh `resetEntry` dict, then call
`save_persist` once after the loop. The result pairs the new state map
with the number of `save_persist` calls the block performs. -/
def resetBlock (stocks : List Symbol) (st : StateMap) : StateMap × Nat :=
  (stocks.foldl (fun m s => setEntry m s resetEntry) st, 1)

/-- Python `str.strip`'s whitespace test, restricted to the ASCII
whitespace characters. -/
def pyIsSpace (c : Char) : Bool :=
  c = ' ' ∨ c = '\t' ∨ c = '\n' ∨ c = '\r' ∨ c = '\x0b' ∨ c = '\x0c'

/-- Python `str.strip()`: drop whitespace from both ends. -/
def pyStrip (s : List Char) : List Char :=
  ((s.dropWhile pyIsSpace).reverse.dropWhile pyIsSpace).reverse

/-- Python `str.upper()` (on the ASCII tickers the endpoints handle). -/
def pyUpper (s : List Char) : List Char :=
  s.map Char.toUpper

/-- The characters of the `".NS"` exchange tail. -/
def nsTail : List Char := ['.', 'N', 'S']

/-- The response dict of the add-stock endpoints: `ok`, and the `error`
or `ticker` field depending on the branch taken. -/
structure AddResp where
  ok : Bool
  error : Option String
  ticker : Option Symbol
deriving DecidableEq

/-- The shared body of `add_stock_json` (`main.py` lines 272-284) and
`add_stock_path` (lines 286-297), starting from the raw ticker string:
strip and upper-case it; on an empty result return
`{"ok": False, "error": "Ticker missing"}` without touching the globals;
otherwise append the `".NS"` tail if missing, register the ticker, and
return ok. (`save_persist` on the success path is not modelled here; the
error path returns before reaching it.) -/
def add_stock_core (raw : Symbol) (st : Store) : AddResp × Store :=
  let tick := pyUpper (pyStrip raw)
  if tick = [] then
    ({ ok := false, error := some "Ticker missing", ticker := none }, st)
  else
    let tick2 := if nsTail.isSuffixOf tick then tick else tick ++ nsTail
    let st1 :=
      { st with stocks :=
          if tick2 ∈ st.stocks then st.stocks else st.stocks ++ [tick2] }
    let st2 := ensure_stock_entry tick2 st1
    ({ ok := true, error := none, ticker := some tick2 }, st2)

/-- `add_stock_json` (`main.py` lines 272-284): the ticker comes from
`body.get("ticker") or ""`, so a missing body field behaves as `""`. -/
def add_stock_json (body : Option Symbol) (st : Store) : AddResp × Store :=
  add_stock_core (body.getD []) st

/-- `add_stock_path` (`main.py` lines 286-297): the ticker comes from the
URL path segment. -/
def add_stock_path (ticker : Symbol) (st : Store) : AddResp × Store :=
  add_stock_core ticker st

/-- The band invariant of the spec: `open_high` and `open_low` are both
null or both set, and when set the high edge dominates the low edge. -/
def bandInv (e : StockEntry) : Prop :=
  (e.open_high = none ↔ e.open_low = none) ∧
    ∀ h l, e.open_high = some h → e.open_low = some l → l ≤ h

/-- Every bar of a fetched frame has `low ≤ high` (the defining property
of real OHLC minute bars, assumed of the market-data source). -/
def validBars : Option (List Bar) → Prop
  | none => True
  | some df => ∀ b ∈ df, b.low ≤ b.high

/-! Concrete sample data used to evaluate the monitor on explicit
inputs: a ticker, an entry with the reference band `[100, 110]`
captured, and various one-bar intraday frames. `11:00:00` is
`39600` seconds, `10:30:00` is `37800`, `15:33:20` is `56000`. -/

/-- The ticker `"X"`. -/
def symX : Symbol := ['X']

/-- An entry whose 10:30 band is `[100, 110]`, with live extremes
`108`/`99`, last price `104`, in-band status `RED`. -/
def sampleEntry : StockEntry :=
  { open_high := some 110
    open_low := some 100
    current_high := some 108
    current_low := some 99
    last_price := some 104
    status := "RED"
    last_update := some 3 }

/-- A one-bar frame closing at `111`, above the sample band. -/
def dfBreakHigh : List Bar := [{ high := 111, low := 105, close := 111 }]

/-- A one-bar frame closing at `99`, below the sample band. -/
def dfBreakLow : List Bar := [{ high := 101, low := 99, close := 99 }]

/-- A one-bar frame closing at `105`, inside the sample band. -/
def dfInBand : List Bar := [{ high := 106, low := 103, close := 105 }]

/-- A one-bar frame whose day high `110` is below the stored live high
`120` of `shrinkEntry`. -/
def dfShrink : List Bar := [{ high := 110, low := 99, close := 104 }]

/-- A one-bar frame closing at `101`. -/
def dfClose101 : List Bar := [{ high := 111, low := 99, close := 101 }]

/-- `sampleEntry` with its live high raised to `120`. -/
def shrinkEntry : StockEntry := { sampleEntry with current_high := some 120 }

/-- `sampleEntry` already in the terminal `MARKET_CLOSED` status with
last price `100`. -/
def closedEntry : StockEntry :=
  { sampleEntry with status := "MARKET_CLOSED", last_price := some 100 }

/-- An entry as a prior trading day would have persisted it: band
captured, live extremes and last price recorded. -/
def staleEntry : StockEntry :=
  { open_high := some 110
    open_low := some 100
    current_high := some 120
    current_low := some 95
    last_price := some 104
    status := "RED"
    last_update := some 7 }

/-- A persisted snapshot written on a prior trading day, holding
`staleEntry` for ticker `symX`. -/
def staleSnap : Persist :=
  { stocks := [symX], state := setEntry (fun _ => none) symX staleEntry }

/-- An entry recording `last_update = 5` from an earlier pass, used to
observe what a no-data pass does to the timestamp. -/
def gapEntry : StockEntry := { sampleEntry with last_update := some 5 }

/-- The globals before any ticker is registered. -/
def emptyStore : Store := { stocks := [], state := fun _ => none }

/-! Helper lemmas. -/

theorem foldl_max_high_ge (bs : List Bar) (a : ℚ) :
    a ≤ bs.foldl (fun x c => max x c.high) a := by
  induction bs generalizing a with
  | nil => exact le_refl a
  | cons b rest ih =>
    exact le_trans (le_max_left a b.high) (ih (max a b.high))

theorem foldl_min_low_le (bs : List Bar) (a : ℚ) :
    bs.foldl (fun x c => min x c.low) a ≤ a := by
  induction bs generalizing a with
  | nil => exact le_refl a
  | cons b rest ih =>
    exact le_trans (ih (min a b.low)) (min_le_left a b.low)

theorem seriesLow_le_seriesHigh (df : List Bar)
    (hv : ∀ b ∈ df, b.low ≤ b.high) (oh ol : ℚ)
    (hh : seriesHigh df = some oh) (hl : seriesLow df = some ol) :
    ol ≤ oh := by
  cases df with
  | nil => simp [seriesHigh] at hh
  | cons b bs =>
    simp only [seriesHigh, seriesLow, Option.some.injEq] at hh hl
    have h1 : ol ≤ b.low := hl ▸ foldl_min_low_le bs b.low
    have h2 : b.high ≤ oh := hh ▸ foldl_max_high_ge bs b.high
    exact le_trans h1 (le_trans (hv b (List.mem_cons_self b bs)) h2)

theorem seriesLastClose_ne_nil (df : List Bar) (lp : ℚ)
    (h : seriesLastClose df = some lp) : df ≠ [] := by
  intro hnil
  subst hnil
  simp [seriesLastClose] at h

theorem seriesHigh_of_ne_nil (df : List Bar) (h : df ≠ []) :
    ∃ v, seriesHigh df = some v := by
  cases df with
  | nil => exact absurd rfl h
  | cons b bs => exact ⟨_, rfl⟩

theorem seriesLow_of_ne_nil (df : List Bar) (h : df ≠ []) :
    ∃ v, seriesLow df = some v := by
  cases df with
  | nil => exact absurd rfl h
  | cons b bs => exact ⟨_, rfl⟩

theorem seriesLastClose_of_ne_nil (df : List Bar) (h : df ≠ []) :
    ∃ v, seriesLastClose df = some v := by
  cases df with
  | nil => exact absurd rfl h
  | cons b bs =>
    cases hg : (b :: bs).getLast? with
    | none => simp at hg
    | some bar => exact ⟨bar.close, by simp [seriesLastClose, hg]⟩

theorem evalStatusUpdate_preserves (e : StockEntry) :
    (evalStatusUpdate e).open_high = e.open_high ∧
    (evalStatusUpdate e).open_low = e.open_low ∧
    (evalStatusUpdate e).current_high = e.current_high ∧
    (evalStatusUpdate e).current_low = e.current_low ∧
    (evalStatusUpdate e).last_price = e.last_price ∧
    (evalStatusUpdate e).last_update = e.last_update := by
  unfold evalStatusUpdate
  split
  · split <;> simp
  · simp

theorem evalStatusUpdate_closed (e : StockEntry)
    (h : e.status = "MARKET_CLOSED") : evalStatusUpdate e = e := by
  unfold evalStatusUpdate
  split
  · simp [h]
  · rfl

theorem evalStatusUpdate_status (e : StockEntry) (oh ol lp : ℚ)
    (hoh : e.open_high = some oh) (hol : e.open_low = some ol)
    (hlp : e.last_price = some lp) (hst : e.status ≠ "MARKET_CLOSED") :
    (evalStatusUpdate e).status =
      if lp > oh ∨ lp < ol then "AMBER" else "RED" := by
  unfold evalStatusUpdate
  simp only [hoh, hol, hlp]
  simp [hst]

theorem not_open_of_postclose (t : Nat) (hpost : marketCloseSec < t) :
    ¬ is_market_open_now t :=
  fun h => absurd hpost (not_lt.mpr h.2)

theorem stepData_open_captured (t ts : Nat) (df : List Bar)
    (e : StockEntry) (lp dh dl : ℚ) (hmkt : is_market_open_now t)
    (hlp : seriesLastClose df = some lp) (hdh : seriesHigh df = some dh)
    (hdl : seriesLow df = some dl) :
    (stepData t ts true df e).1 =
      evalStatusUpdate
        { e with
            last_price := some lp
            last_update := some ts
            current_high := some dh
            current_low := some dl } := by
  unfold stepData captureTick
  simp only [hlp, hdh, hdl, if_pos hmkt, ite_self]
  simp only [if_true, ite_self]

theorem stepData_postclose (t ts : Nat) (cap : Bool) (df : List Bar)
    (e : StockEntry) (lp dh dl : ℚ) (hpost : marketCloseSec < t)
    (hlp : seriesLastClose df = some lp) (hdh : seriesHigh df = some dh)
    (hdl : seriesLow df = some dl) :
    ((stepData t ts cap df e).1).status = "MARKET_CLOSED" ∧
    ((stepData t ts cap df e).1).last_price = some lp ∧
    ((stepData t ts cap df e).1).current_high = some dh ∧
    ((stepData t ts cap df e).1).current_low = some dl := by
  have hno := not_open_of_postclose t hpost
  unfold stepData
  simp only [hlp, hdh, hdl, if_neg hno]
  by_cases hmc : e.status = "MARKET_CLOSED"
  · rw [if_neg (by simp [hmc])]
    rw [evalStatusUpdate_closed _ (by simpa using hmc)]
    simp [hmc]
  · rw [if_pos ⟨hpost, by simpa using hmc⟩]
    rw [evalStatusUpdate_closed _ rfl]
    simp

theorem stepSymbol_preserves_closed (t ts : Nat) (odf : Option (List Bar))
    (e : StockEntry) (hmc : e.status = "MARKET_CLOSED") :
    ((stepSymbol t ts true odf e).1).status = "MARKET_CLOSED" := by
  cases odf with
  | none => simpa [stepSymbol] using hmc
  | some df =>
    show ((stepData t ts true df e).1).status = _
    unfold stepData captureTick
    cases hlc : seriesLastClose df <;>
      cases hdh : seriesHigh df <;>
        cases hdl : seriesLow df <;>
          by_cases hm : is_market_open_now t <;>
            simp [hm, hmc, evalStatusUpdate_closed, ite_self, if_true]

theorem bandInv_evalStatusUpdate (e : StockEntry) (h : bandInv e) :
    bandInv (evalStatusUpdate e) := by
  obtain ⟨hp1, hp2, -⟩ := evalStatusUpdate_preserves e
  refine ⟨by rw [hp1, hp2]; exact h.1, fun a b ha hb => ?_⟩
  exact h.2 a b (hp1.symm.trans ha) (hp2.symm.trans hb)

theorem bandInv_captureTick (ts : Nat) (df : List Bar) (cap : Bool)
    (e : StockEntry) (hv : ∀ b ∈ df, b.low ≤ b.high) (he : bandInv e) :
    bandInv (captureTick ts df cap e).1 := by
  cases cap with
  | true => simpa [captureTick] using he
  | false =>
    cases hh : seriesHigh df with
    | none => simpa [captureTick, hh] using he
    | some oh =>
      cases hl : seriesLow df with
      | none => simpa [captureTick, hh, hl] using he
      | some ol =>
        have hle := seriesLow_le_seriesHigh df hv oh ol hh hl
        refine ⟨by simp [captureTick, hh, hl], fun a b ha hb => ?_⟩
        simp [captureTick, hh, hl] at ha hb
        rw [← ha, ← hb]
        exact hle

theorem bandInv_stepSymbol (t ts : Nat) (cap : Bool)
    (odf : Option (List Bar)) (e : StockEntry)
    (hv : validBars odf) (he : bandInv e) :
    bandInv (stepSymbol t ts cap odf e).1 := by
  cases odf with
  | none => exact he
  | some df =>
    have hv' : ∀ b ∈ df, b.low ≤ b.high := hv
    show bandInv (stepData t ts cap df e).1
    by_cases hm : is_market_open_now t
    · cases hlc : seriesLastClose df <;>
        cases hdh : seriesHigh df <;>
          cases hdl : seriesLow df <;>
            simp only [stepData, hlc, hdh, hdl, if_pos hm] <;>
              apply bandInv_evalStatusUpdate <;>
                split <;>
                  first
                    | exact bandInv_captureTick ts df cap _ hv' he
                    | exact he
    · cases hlc : seriesLastClose df <;>
        cases hdh : seriesHigh df <;>
          cases hdl : seriesLow df <;>
            simp only [stepData, hlc, hdh, hdl, if_neg hm] <;>
              apply bandInv_evalStatusUpdate <;>
                split <;> exact he

theorem foldl_reset_not_mem (l : List Symbol) (st : StateMap) (s : Symbol)
    (h : s ∉ l) :
    (l.foldl (fun m q => setEntry m q resetEntry) st) s = st s := by
  induction l generalizing st with
  | nil => rfl
  | cons a rest ih =>
    have hna : s ≠ a := fun hs => h (hs ▸ List.mem_cons_self a rest)
    have hnr : s ∉ rest := fun hs => h (List.mem_cons_of_mem a hs)
    simp only [List.foldl_cons]
    rw [ih _ hnr]
    simp [setEntry, hna]

theorem foldl_reset_mem (l : List Symbol) (st : StateMap) (s : Symbol)
    (h : s ∈ l) :
    (l.foldl (fun m q => setEntry m q resetEntry) st) s = some resetEntry := by
  induction l generalizing st with
  | nil => cases h
  | cons a rest ih =>
    simp only [List.foldl_cons]
    by_cases hr : s ∈ rest
    · exact ih _ hr
    · have hsa : s = a := by
        rcases List.mem_cons.mp h with h1 | h2
        · exact h1
        · exact absurd h2 hr
      rw [foldl_reset_not_mem rest _ s hr]
      simp [setEntry, hsa]

theorem pyStrip_all_space (raw : Symbol)
    (h : ∀ c ∈ raw, pyIsSpace c = true) : pyStrip raw = [] := by
  have h1 : raw.dropWhile pyIsSpace = [] := List.dropWhile_eq_nil_iff.mpr h
  simp [pyStrip, h1]

theorem store_ext (a b : Store) (h1 : a.stocks = b.stocks)
    (h2 : a.state = b.state) : a = b := by
  cases a
  cases b
  simp_all

/-! Claim theorems. -/

/-- C1 counterexample: the code has a single breakout status. With the
band `[100, 110]`, a refresh at price `111` (above the band) and a
refresh at price `99` (below the band) both set the status to the same
value `AMBER`, so the refresh cannot be setting two distinct statuses
`BREAKOUT_HIGH` and `BREAKOUT_LOW` as the claim states; price `105`
(in band) gives `RED`. -/
theorem c1_counterexample :
    ((stepSymbol 39600 7 true (some dfBreakHigh) sampleEntry).1).status
        = "AMBER" ∧
    ((stepSymbol 39600 7 true (some dfBreakLow) sampleEntry).1).status
        = "AMBER" ∧
    ((stepSymbol 39600 7 true (some dfBreakHigh) sampleEntry).1).status
        = ((stepSymbol 39600 7 true (some dfBreakLow) sampleEntry).1).status ∧
    ((stepSymbol 39600 7 true (some dfInBand) sampleEntry).1).status
        = "RED" := by
  decide

/-- C2 counterexample: live extremes are overwritten, not monotonically
extended. An entry whose stored live high is `120`, refreshed during
market hours with a frame whose day high is only `110`, ends the pass
with `current_high = 110 < 120`: the stored live high shrank. -/
theorem c2_counterexample :
    shrinkEntry.current_high = some 120 ∧
    ((stepSymbol 39600 7 true (some dfShrink) shrinkEntry).1).current_high
        = some 110 ∧
    ¬ ((120 : ℚ) ≤ 110) := by
  decide

/-- C3 counterexample: a pass whose fetch returns no data does NOT
refresh the last-checked timestamp. An entry with `last_update = 5`,
stepped at timestamp `99` with `fetch_intraday_df` returning `None`,
still has `last_update = 5` afterwards, not the refreshed `99` the
claim states. -/
theorem c3_counterexample :
    (stepSymbol 40000 99 false none gapEntry).1 = gapEntry ∧
    gapEntry.last_update = some 5 ∧
    (stepSymbol 40000 99 false none gapEntry).1.last_update ≠ some 99 := by
  decide

/-- C3 (amended): a Live Monitor Loop pass in which the data fetch
returns no data leaves the symbol's entry entirely unchanged — status,
band, prices AND `last_update` — and leaves the captured-marker
unchanged; no field at all is refreshed (`continue` at line 173). -/
theorem c3_no_data_pass_is_identity (t ts : Nat) (cap : Bool)
    (e : StockEntry) : stepSymbol t ts cap none e = (e, cap) := rfl

/-- C5 counterexample: `MARKET_CLOSED` does not freeze the entry. An
entry already in `MARKET_CLOSED` with `last_price = 100`, stepped after
the session end (`t = 56000 > 55800`) with a frame closing at `101`,
gets `last_price = 101` and its live high overwritten to `111`: price
updates continue to be applied after the close transition. -/
theorem c5_counterexample :
    closedEntry.status = "MARKET_CLOSED" ∧
    closedEntry.last_price = some 100 ∧
    ((stepSymbol 56000 9 true (some dfClose101) closedEntry).1).last_price
        = some 101 ∧
    ((stepSymbol 56000 9 true (some dfClose101) closedEntry).1).current_high
        = some 111 := by
  decide

/-- C6 counterexample: the persisted snapshot is reloaded verbatim with
no staleness reset. A snapshot written on a prior trading day, holding a
captured band for ticker `X`, is restored by `load_persist` exactly as
saved — band still present, status still `RED` — and not replaced by the
reset entry (band `null`, status `UNKNOWN`) as the claim states; the
loaded entries carry no trading-day field that could even be compared
with today. -/
theorem c6_counterexample :
    (load_persist (some staleSnap)).state symX = some staleEntry ∧
    staleEntry.open_high = some 110 ∧
    staleEntry.status = "RED" ∧
    resetEntry.open_high = none ∧
    resetEntry.status = "UNKNOWN" ∧
    (load_persist (some staleSnap)).state symX ≠ some resetEntry := by
  decide

/-- C6 (amended): on startup the persisted snapshot is reloaded verbatim
for EVERY symbol regardless of trading day — the persisted entries carry
no trading-day field, no staleness check is performed, and no symbol is
reset at load time (a missing or unreadable persist file yields empty
globals instead). -/
theorem c6_load_restores_verbatim (p : Persist) :
    load_persist (some p) = { stocks := p.stocks, state := p.state } ∧
    load_persist none = { stocks := [], state := fun _ => none } :=
  ⟨rfl, rfl⟩

/-- C7 (confirmed): band capture is idempotent within a trading day.
After a first capture tick for a not-yet-captured symbol (which always
marks the symbol captured, whatever the frame), a second capture tick —
at any time, with any frame — leaves `open_high` and `open_low`
unchanged. -/
theorem c7_capture_idempotent (ts ts2 : Nat) (df df2 : List Bar)
    (e : StockEntry) :
    (captureTick ts2 df2 (captureTick ts df false e).2
        (captureTick ts df false e).1).1.open_high
      = (captureTick ts df false e).1.open_high ∧
    (captureTick ts2 df2 (captureTick ts df false e).2
        (captureTick ts df false e).1).1.open_low
      = (captureTick ts df false e).1.open_low := by
  have h2 : (captureTick ts df false e).2 = true := by
    unfold captureTick
    cases hh : seriesHigh df <;> cases hl : seriesLow df <;> simp
  rw [h2]
  constructor <;> simp [captureTick]

/-- C8 (confirmed): after the daily reset block, every ticker in the
`stocks` list maps to the fresh reset entry — band cleared to `null` and
status `UNKNOWN` regardless of prior values — and the block calls
`save_persist` exactly once, after processing all symbols. -/
theorem c8_reset_clears_band (stocks : List Symbol) (st : StateMap)
    (s : Symbol) (hs : s ∈ stocks) :
    (resetBlock stocks st).1 s = some resetEntry ∧
    resetEntry.open_high = none ∧ resetEntry.open_low = none ∧
    resetEntry.status = "UNKNOWN" ∧
    (resetBlock stocks st).2 = 1 :=
  ⟨foldl_reset_mem stocks st s hs, rfl, rfl, rfl, rfl⟩

/-- C8 witness: the reset theorem instantiated on the one-ticker store
`[X]` with an arbitrary prior state. -/
theorem c8_reset_clears_band_witness :
    symX ∈ [symX] ∧
    ((resetBlock [symX] (fun _ => none)).1 symX = some resetEntry ∧
     resetEntry.open_high = none ∧ resetEntry.open_low = none ∧
     resetEntry.status = "UNKNOWN" ∧
     (resetBlock [symX] (fun _ => none)).2 = 1) :=
  ⟨by decide, c8_reset_clears_band [symX] (fun _ => none) symX (by decide)⟩

/-- C1 (amended): for a symbol with the band captured and a data-bearing
refresh during market hours while the status is not `MARKET_CLOSED`, the
pass sets the status to `AMBER` — the code's single breakout status,
used for breakouts in either direction — when the fetched last price is
strictly above `open_high` or strictly below `open_low`, and to `RED` —
the code's in-band status — when `open_low ≤ price ≤ open_high`, both
boundaries inclusive. -/
theorem c1_classification_inclusive (t ts : Nat) (df : List Bar)
    (e : StockEntry) (oh ol lp : ℚ) (hmkt : is_market_open_now t)
    (hoh : e.open_high = some oh) (hol : e.open_low = some ol)
    (hst : e.status ≠ "MARKET_CLOSED")
    (hlp : seriesLastClose df = some lp) :
    (oh < lp →
      ((stepSymbol t ts true (some df) e).1).status = "AMBER") ∧
    (lp < ol →
      ((stepSymbol t ts true (some df) e).1).status = "AMBER") ∧
    (ol ≤ lp → lp ≤ oh →
      ((stepSymbol t ts true (some df) e).1).status = "RED") := by
  have hne := seriesLastClose_ne_nil df lp hlp
  obtain ⟨dh, hdh⟩ := seriesHigh_of_ne_nil df hne
  obtain ⟨dl, hdl⟩ := seriesLow_of_ne_nil df hne
  have hstep : (stepSymbol t ts true (some df) e).1
      = evalStatusUpdate
          { e with
              last_price := some lp
              last_update := some ts
              current_high := some dh
              current_low := some dl } :=
    stepData_open_captured t ts df e lp dh dl hmkt hlp hdh hdl
  have hs := evalStatusUpdate_status
    { e with
        last_price := some lp
        last_update := some ts
        current_high := some dh
        current_low := some dl } oh ol lp hoh hol rfl hst
  refine ⟨fun h => ?_, fun h => ?_, fun h1 h2 => ?_⟩ <;> rw [hstep, hs]
  · rw [if_pos (Or.inl h)]
  · rw [if_pos (Or.inr h)]
  · rw [if_neg]
    rintro (hgt | hlt)
    · exact absurd h2 (not_le.mpr hgt)
    · exact absurd h1 (not_le.mpr hlt)

/-- C1 witness: the amended classification evaluated on the band
`[100, 110]` with the above-band frame closing at `111`. -/
theorem c1_classification_inclusive_witness :
    (is_market_open_now 39600 ∧ sampleEntry.open_high = some 110 ∧
     sampleEntry.open_low = some 100 ∧
     sampleEntry.status ≠ "MARKET_CLOSED" ∧
     seriesLastClose dfBreakHigh = some 111) ∧
    (((110 : ℚ) < 111 →
      ((stepSymbol 39600 7 true (some dfBreakHigh) sampleEntry).1).status
        = "AMBER") ∧
     ((111 : ℚ) < 100 →
      ((stepSymbol 39600 7 true (some dfBreakHigh) sampleEntry).1).status
        = "AMBER") ∧
     ((100 : ℚ) ≤ 111 → (111 : ℚ) ≤ 110 →
      ((stepSymbol 39600 7 true (some dfBreakHigh) sampleEntry).1).status
        = "RED")) :=
  ⟨⟨by decide, rfl, rfl, by decide, by decide⟩,
   c1_classification_inclusive 39600 7 dfBreakHigh sampleEntry 110 100 111
     (by decide) rfl rfl (by decide) (by decide)⟩

/-- C2 (amended): a data-bearing refresh during market hours OVERWRITES
`current_high`/`current_low` with the fetched series' max/min; the live
extremes are therefore non-decreasing/non-increasing only when each
successive fetched series' max/min extends the previous one (as when
every fetch returns the full day so far), not for every pair of
consecutive refreshes. -/
theorem c2_live_extremes_overwritten (t ts : Nat) (df : List Bar)
    (e : StockEntry) (dh dl : ℚ) (hmkt : is_market_open_now t)
    (hdh : seriesHigh df = some dh) (hdl : seriesLow df = some dl) :
    ((stepSymbol t ts true (some df) e).1).current_high = some dh ∧
    ((stepSymbol t ts true (some df) e).1).current_low = some dl := by
  have hne : df ≠ [] := by
    intro h
    subst h
    simp [seriesHigh] at hdh
  obtain ⟨lp, hlp⟩ := seriesLastClose_of_ne_nil df hne
  have hstep : (stepSymbol t ts true (some df) e).1
      = evalStatusUpdate
          { e with
              last_price := some lp
              last_update := some ts
              current_high := some dh
              current_low := some dl } :=
    stepData_open_captured t ts df e lp dh dl hmkt hlp hdh hdl
  rw [hstep]
  obtain ⟨-, -, hch, hcl, -, -⟩ := evalStatusUpdate_preserves
    { e with
        last_price := some lp
        last_update := some ts
        current_high := some dh
        current_low := some dl }
  exact ⟨hch, hcl⟩

/-- C2 witness: the overwrite theorem evaluated on the entry whose
stored live high is `120` and the frame whose day high is `110`. -/
theorem c2_live_extremes_overwritten_witness :
    (is_market_open_now 39600 ∧ seriesHigh dfShrink = some 110 ∧
     seriesLow dfShrink = some 99) ∧
    (((stepSymbol 39600 7 true (some dfShrink) shrinkEntry).1).current_high
        = some 110 ∧
     ((stepSymbol 39600 7 true (some dfShrink) shrinkEntry).1).current_low
        = some 99) :=
  ⟨⟨by decide, by decide, by decide⟩,
   c2_live_extremes_overwritten 39600 7 dfShrink shrinkEntry 110 99
     (by decide) (by decide) (by decide)⟩

/-- C4 (confirmed): the band invariant — `open_high` and `open_low`
both null or both set, with `open_low ≤ open_high` when set — holds for
the entry created on registration, for the entry written by the daily
reset, and is preserved by every monitor pass (including band capture,
provided every fetched bar has `low ≤ high`). -/
theorem c4_band_invariant (t ts : Nat) (cap : Bool)
    (odf : Option (List Bar)) (e : StockEntry)
    (hv : validBars odf) (he : bandInv e) :
    bandInv defaultEntry ∧ bandInv resetEntry ∧
    bandInv ((stepSymbol t ts cap odf e).1) := by
  refine ⟨?_, ?_, bandInv_stepSymbol t ts cap odf e hv he⟩
  · exact ⟨by simp [defaultEntry], fun a b ha hb => by
      simp [defaultEntry] at ha⟩
  · exact ⟨by simp [resetEntry], fun a b ha hb => by
      simp [resetEntry] at ha⟩

/-- C4 witness: invariant preservation evaluated on `sampleEntry` and
the in-band frame. -/
theorem c4_band_invariant_witness :
    (validBars (some dfInBand) ∧ bandInv sampleEntry) ∧
    (bandInv defaultEntry ∧ bandInv resetEntry ∧
     bandInv ((stepSymbol 39600 7 true (some dfInBand) sampleEntry).1)) := by
  have hv0 : validBars (some dfInBand) := by
    show ∀ b ∈ dfInBand, b.low ≤ b.high
    decide
  have hb0 : bandInv sampleEntry := by
    refine ⟨by simp [sampleEntry], fun a b ha hb => ?_⟩
    simp [sampleEntry] at ha hb
    rw [← ha, ← hb]
    norm_num
  exact ⟨⟨hv0, hb0⟩,
    c4_band_invariant 39600 7 true (some dfInBand) sampleEntry hv0 hb0⟩

/-- C5 (amended): once the session end time has passed, a monitor pass
whose fetch returns data moves the symbol to `MARKET_CLOSED` (and a
symbol already closed stays closed through any later pass, so the
transition happens once); but the entry is NOT frozen — `last_price`
(and the live extremes) continue to be overwritten from each fetched
series after the close. Within the loop, `MARKET_CLOSED` is only left
by the daily reset, which rewrites the entry. -/
theorem c5_close_transition (t t2 ts ts2 : Nat) (cap : Bool)
    (df : List Bar) (odf : Option (List Bar)) (e e2 : StockEntry)
    (lp : ℚ) (hpost : marketCloseSec < t)
    (hlp : seriesLastClose df = some lp)
    (hmc : e2.status = "MARKET_CLOSED") :
    ((stepSymbol t ts cap (some df) e).1).status = "MARKET_CLOSED" ∧
    ((stepSymbol t ts cap (some df) e).1).last_price = some lp ∧
    ((stepSymbol t2 ts2 true odf e2).1).status = "MARKET_CLOSED" := by
  have hne := seriesLastClose_ne_nil df lp hlp
  obtain ⟨dh, hdh⟩ := seriesHigh_of_ne_nil df hne
  obtain ⟨dl, hdl⟩ := seriesLow_of_ne_nil df hne
  obtain ⟨h1, h2, -, -⟩ :=
    stepData_postclose t ts cap df e lp dh dl hpost hlp hdh hdl
  exact ⟨h1, h2, stepSymbol_preserves_closed t2 ts2 odf e2 hmc⟩

/-- C5 witness: the close-transition theorem evaluated after hours on
`sampleEntry` and on the already-closed entry. -/
theorem c5_close_transition_witness :
    (marketCloseSec < 56000 ∧ seriesLastClose dfClose101 = some 101 ∧
     closedEntry.status = "MARKET_CLOSED") ∧
    (((stepSymbol 56000 9 true (some dfClose101) sampleEntry).1).status
        = "MARKET_CLOSED" ∧
     ((stepSymbol 56000 9 true (some dfClose101) sampleEntry).1).last_price
        = some 101 ∧
     ((stepSymbol 39600 7 true (some dfInBand) closedEntry).1).status
        = "MARKET_CLOSED") :=
  ⟨⟨by decide, by decide, rfl⟩,
   c5_close_transition 56000 39600 9 7 true dfClose101 (some dfInBand)
     sampleEntry closedEntry 101 (by decide) (by decide) rfl⟩

/-- C9 (confirmed): registration is idempotent. Registering an absent
ticker installs the default entry (every field null, status `UNKNOWN`);
registering it again is a no-op on the whole store; an existing entry —
in particular an already-captured band — is never overwritten. -/
theorem c9_register_idempotent (tick : Symbol) (st : Store) :
    ensure_stock_entry tick (ensure_stock_entry tick st)
        = ensure_stock_entry tick st ∧
    (st.state tick = none →
      (ensure_stock_entry tick st).state tick = some defaultEntry) ∧
    (∀ e, st.state tick = some e →
      (ensure_stock_entry tick st).state = st.state ∧
      (ensure_stock_entry tick st).state tick = some e) ∧
    defaultEntry.open_high = none ∧ defaultEntry.open_low = none ∧
    defaultEntry.current_high = none ∧ defaultEntry.current_low = none ∧
    defaultEntry.last_price = none ∧ defaultEntry.last_update = none ∧
    defaultEntry.status = "UNKNOWN" := by
  have hmem : tick ∈ (ensure_stock_entry tick st).stocks := by
    unfold ensure_stock_entry
    by_cases h : tick ∈ st.stocks <;> simp [h]
  have hsome : ∃ v, (ensure_stock_entry tick st).state tick = some v := by
    cases hst : st.state tick with
    | some e => exact ⟨e, by simp [ensure_stock_entry, hst]⟩
    | none => exact ⟨defaultEntry, by simp [ensure_stock_entry, hst, setEntry]⟩
  obtain ⟨v, hv⟩ := hsome
  have hfix : ∀ (Y : Store), tick ∈ Y.stocks → Y.state tick = some v →
      ensure_stock_entry tick Y = Y := by
    intro Y hm hs
    apply store_ext
    · simp [ensure_stock_entry, hm]
    · simp [ensure_stock_entry, hs]
  refine ⟨hfix _ hmem hv, fun hn => ?_, fun e hse => ?_, rfl, rfl, rfl,
    rfl, rfl, rfl, rfl⟩
  · simp [ensure_stock_entry, hn, setEntry]
  · constructor
    · simp [ensure_stock_entry, hse]
    · simp [ensure_stock_entry, hse]

/-- C9 witness: registering ticker `X` into the empty store installs
the default entry, and registering it a second time changes nothing. -/
theorem c9_register_idempotent_witness :
    emptyStore.state symX = none ∧
    ensure_stock_entry symX (ensure_stock_entry symX emptyStore)
        = ensure_stock_entry symX emptyStore ∧
    (ensure_stock_entry symX emptyStore).state symX = some defaultEntry :=
  ⟨rfl, (c9_register_idempotent symX emptyStore).1,
   (c9_register_idempotent symX emptyStore).2.1 rfl⟩

/-- C10 (confirmed): both add-stock endpoints, given a ticker that is
empty or whitespace-only, return `ok = false` with the error message
`Ticker missing` and leave the `stocks` list and the whole `state` map
exactly as they were — the failed add mutates nothing. -/
theorem c10_blank_ticker_rejected (body : Option Symbol) (raw : Symbol)
    (st : Store) (hb : body.getD [] = raw)
    (hws : ∀ c ∈ raw, pyIsSpace c = true) :
    add_stock_json body st
        = ({ ok := false, error := some "Ticker missing",
             ticker := none }, st) ∧
    add_stock_path raw st
        = ({ ok := false, error := some "Ticker missing",
             ticker := none }, st) := by
  have hstrip : pyStrip raw = [] := pyStrip_all_space raw hws
  have hcore : add_stock_core raw st
      = ({ ok := false, error := some "Ticker missing",
           ticker := none }, st) := by
    simp [add_stock_core, hstrip, pyUpper]
  exact ⟨by unfold add_stock_json; rw [hb]; exact hcore, hcore⟩

/-- C10 witness: the rejection theorem evaluated on the single-blank
ticker request against the empty store. -/
theorem c10_blank_ticker_rejected_witness :
    ((some [' '] : Option Symbol).getD [] = [' '] ∧
     (∀ c ∈ ([' '] : Symbol), pyIsSpace c = true)) ∧
    (add_stock_json (some [' ']) emptyStore
        = ({ ok := false, error := some "Ticker missing",
             ticker := none }, emptyStore) ∧
     add_stock_path [' '] emptyStore
        = ({ ok := false, error := some "Ticker missing",
             ticker := none }, emptyStore)) :=
  ⟨⟨rfl, by decide⟩,
   c10_blank_ticker_rejected (some [' ']) [' '] emptyStore rfl (by decide)⟩

end StockMonitor
